import Mathlib

/-!
Verification of `internal/pkg/chrome/chrome.go` (gotenberg): a supervisor
for a headless Chrome process.  The Go functions `Start`, `cmd`, `kill`,
`restart`, `IsViable` are embedded shallowly: external effects (the
`syscall.Kill` syscall, `xexec.Command` / `cmd.Start` spawn outcomes, and
the devtools `Version` probe) are supplied as oracles, and the sequential
control flow of the Go code is reproduced as pure Lean functions.  The
unbounded recursion of `restart` is modelled with an explicit fuel
argument whose exhaustion marker `fuelOut` means "still recursing".
-/

namespace Chrome

/-! ### Go `strings.Contains` -/

/-- Char-list version of a starts-with test: first argument is the pattern,
second the text. -/
def listStartsWith : List Char → List Char → Bool
  | [], _ => true
  | _ :: _, [] => false
  | p :: ps, c :: cs => p == c && listStartsWith ps cs

/-- Does the pattern occur as a contiguous sublist of the text? -/
def listHasSub (pat : List Char) : List Char → Bool
  | [] => listStartsWith pat []
  | c :: cs => listStartsWith pat (c :: cs) || listHasSub pat cs

/-- Embedding of Go `strings.Contains s pat`. -/
def goContains (s pat : String) : Bool :=
  listHasSub pat.data s.data

/-! ### Errors -/

/-- Go error values as they flow through `chrome.go`.
`errstr msg` is a primitive error whose `Error()` string is `msg`
(e.g. a syscall error or a devtools transport error).
`xerrorNew op cause` — Modelled from the spec: the repository's
`xerror.New(op, err)` helper is not under `src/`; per the spec the caller
receives "a single terminal error describing the last known cause", so
`xerror.New` is modelled as attaching the operation tag while preserving
the wrapped cause. -/
inductive GoError : Type where
  | errstr (msg : String) : GoError
  | xerrorNew (op : String) (cause : GoError) : GoError
deriving DecidableEq, Repr

/-- Does some primitive error in the wrap chain mention the given substring? -/
def errMentions : GoError → String → Bool
  | GoError.errstr msg, pat => goContains msg pat
  | GoError.xerrorNew _ cause, pat => errMentions cause pat

/-! ### Signals and the kill syscall oracle -/

/-- Unix signals that matter to this file. -/
inductive Sig : Type where
  | SIGKILL : Sig
  | SIGTERM : Sig
  | SIGINT : Sig
deriving DecidableEq, Repr

/-- Oracle for `syscall.Kill target sig`: `none` means the signal was
delivered, `some msg` means the syscall failed with error string `msg`. -/
def SysKill : Type := Int → Sig → Option String

/-- Embedding of `chrome.kill` (chrome.go lines 83-100): sends SIGKILL to
the negated pid (the process group), treats a "no such process" failure as
success, and wraps any other failure with the `chrome.kill` operation tag. -/
def kill (sysKill : SysKill) (procPid : Nat) : Option GoError :=
  match sysKill (-(procPid : Int)) Sig.SIGKILL with
  | none => none
  | some errStr =>
    if goContains errStr "no such process" then none
    else some (GoError.xerrorNew "chrome.kill" (GoError.errstr errStr))

/-! ### Command construction (`chrome.cmd`) -/

/-- The browser binary name (chrome.go line 48). -/
def chromeBinary : String := "chromium"

/-- The fixed argument list built in `chrome.cmd` (chrome.go lines 49-69),
in source order. -/
def baseChromeArgs : List String :=
  ["--no-sandbox",
   "--headless",
   "--disable-dev-shm-usage",
   "--font-render-hinting=none",
   "--remote-debugging-port=9222",
   "--disable-gpu",
   "--disable-translate",
   "--disable-extensions",
   "--disable-background-networking",
   "--safebrowsing-disable-auto-update",
   "--disable-sync",
   "--disable-default-apps",
   "--hide-scrollbars",
   "--metrics-recording-only",
   "--mute-audio",
   "--no-first-run"]

/-- Argument list after the conditional append (chrome.go lines 71-73). -/
def chromeArgs (ignoreCertificateErrors : Bool) : List String :=
  if ignoreCertificateErrors then baseChromeArgs ++ ["--ignore-certificate-errors"]
  else baseChromeArgs

/-- The command handle produced by `chrome.cmd`: binary, argument list and
the `Setpgid` process-group attribute (chrome.go line 79). -/
structure Cmd : Type where
  binary : String
  args : List String
  setpgid : Bool
deriving DecidableEq, Repr

/-- Embedding of `chrome.cmd` (chrome.go lines 46-81).  `xexecErr` is the
oracle outcome of `xexec.Command` — Modelled from the spec: `xexec` is not
under `src/`; per the spec it "returns a handle representing an unstarted
command" for the given binary and argument list, or fails.  On failure the
error is wrapped with the `chrome.cmd` operation tag. -/
def cmdF (xexecErr : Option GoError) (ignoreCertificateErrors : Bool) : Except GoError Cmd :=
  match xexecErr with
  | some e => Except.error (GoError.xerrorNew "chrome.cmd" e)
  | none => Except.ok ⟨chromeBinary, chromeArgs ignoreCertificateErrors, true⟩

/-! ### The viability probe (`chrome.IsViable`) -/

/-- chrome.go line 137. -/
def maxViabilityTests : Nat := 20

/-- The probe target hard-coded in `chrome.IsViable` (chrome.go line 142). -/
def endpoint : String := "http://localhost:9222"

/-- The remote-debugging launch flag for a given port. -/
def remoteDebuggingPortFlag (port : Nat) : String :=
  "--remote-debugging-port=" ++ toString port

/-- The probe URL for a given port. -/
def endpointFor (port : Nat) : String :=
  "http://localhost:" ++ toString port

/-- One call of the local closure `viable` in `IsViable` (chrome.go lines
139-163), given the oracle outcome of `devtool.New(endpoint).Version(ctx)`:
a transport/protocol error yields `(false, some err)`, success `(true, none)`. -/
def viableAttempt (versionResult : Except E Unit) : Bool × Option E :=
  match versionResult with
  | Except.ok _ => (true, none)
  | Except.error e => (false, some e)

/-- Whether a probe attempt's oracle outcome is a success. -/
def isOkB : Except E Unit → Bool
  | Except.ok _ => true
  | Except.error _ => false

/-- The `for i := 0; i < maxViabilityTests && !result; i++` loop of
`IsViable` (chrome.go lines 167-170).  `probe i` is the oracle outcome of
the `i`-th `viable()` call.  The loop is structurally recursive on `fuel`;
called with `fuel = maxViabilityTests` and `i = 0` the fuel never runs out
before the loop guard fails, so the Go semantics is reproduced exactly.
The returned triple is `(result, err, i)` — the final loop counter `i` is
the number of probe attempts performed. -/
def isViableLoop (probe : Nat → Except E Unit) :
    Nat → Nat → Bool → Option E → Bool × Option E × Nat
  | 0, i, result, err => (result, err, i)
  | fuel + 1, i, result, err =>
    if i < maxViabilityTests ∧ result = false then
      isViableLoop probe fuel (i + 1) (viableAttempt (probe i)).1 (viableAttempt (probe i)).2
    else (result, err, i)

/-- Full loop output of `IsViable`: result flag, last error, attempt count. -/
def IsViableOut (probe : Nat → Except E Unit) : Bool × Option E × Nat :=
  isViableLoop probe maxViabilityTests 0 false none

/-- Embedding of `chrome.IsViable` (chrome.go lines 134-172): the returned
pair `(result, err)`. -/
def IsViable (probe : Nat → Except E Unit) : Bool × Option E :=
  ((IsViableOut probe).1, (IsViableOut probe).2.1)

/-- Number of probe attempts `IsViable` performs (the final loop counter). -/
def IsViableAttempts (probe : Nat → Except E Unit) : Nat :=
  (IsViableOut probe).2.2

/-! ### The supervisor (`chrome.Start` / `chrome.restart`) -/

/-- The environment the supervisor runs in.  Launch cycle `c` is the `c`-th
process started (cycle 0 by `Start`, cycle `c ≥ 1` by the `c`-th `restart`).
`cmdErr c` / `startErr c` are the oracle outcomes of `xexec.Command` and
`cmd.Start()` in cycle `c` (`none` = success); `pid c` is the pid of the
process cycle `c` spawns; `devtool c a` is the outcome of the `a`-th
devtools `Version` probe against cycle `c`'s process; `sysKill` is the
`syscall.Kill` oracle. -/
structure World : Type where
  sysKill : SysKill
  cmdErr : Nat → Option GoError
  startErr : Nat → Option GoError
  pid : Nat → Nat
  devtool : Nat → Nat → Except GoError Unit

/-- Externally observable process-lifecycle events, in program order:
`killSignal t` records a `syscall.Kill t SIGKILL` call, `launch p` records
a successful `cmd.Start()` of a process with pid `p`. -/
inductive Event : Type where
  | killSignal (target : Int) : Event
  | launch (pid : Nat) : Event
deriving DecidableEq, Repr

/-- Outcome of a (fuel-bounded) supervision run: `ok` is a nil error,
`fail e` is a returned error, `fuelOut` means the recursion of `restart`
was still running when the fuel ran out. -/
inductive SupOutcome : Type where
  | ok : SupOutcome
  | fail (e : GoError) : SupOutcome
  | fuelOut : SupOutcome
deriving DecidableEq, Repr

/-- The `if err := resolver(); err != nil { return xerror.New(op, err) }`
pattern shared by `Start`, `kill` and `restart`. -/
def wrapOp (op : String) : SupOutcome → SupOutcome
  | SupOutcome.fail e => SupOutcome.fail (GoError.xerrorNew op e)
  | o => o

/-- Number of `launch` events in a trace (= completed launch-probe cycles). -/
def countLaunch : List Event → Nat
  | [] => 0
  | Event.launch _ :: rest => countLaunch rest + 1
  | Event.killSignal _ :: rest => countLaunch rest

/-- Embedding of `chrome.restart` (chrome.go lines 102-132), with explicit
fuel for the unbounded self-recursion.  `procPid` is the pid of the stale
process handed in, `cycle` the index of the launch cycle this call performs.
Mirrors the Go resolver: kill the stale process first (propagating its
error), build the command, start it, probe with `IsViable` discarding the
probe's error (`isViable, _ := IsViable(logger)`), and recurse while not
viable; a resolver error is wrapped with the `chrome.restart` tag.  The
second component is the event trace. -/
def restartFuel (w : World) (ignoreCertificateErrors : Bool) :
    Nat → Nat → Nat → SupOutcome × List Event
  | 0, _, _ => (SupOutcome.fuelOut, [])
  | fuel + 1, procPid, cycle =>
    match kill w.sysKill procPid with
    | some e => (SupOutcome.fail (GoError.xerrorNew "chrome.restart" e),
                 [Event.killSignal (-(procPid : Int))])
    | none =>
      match cmdF (w.cmdErr cycle) ignoreCertificateErrors with
      | Except.error e => (SupOutcome.fail (GoError.xerrorNew "chrome.restart" e),
                           [Event.killSignal (-(procPid : Int))])
      | Except.ok _ =>
        match w.startErr cycle with
        | some e => (SupOutcome.fail (GoError.xerrorNew "chrome.restart" e),
                     [Event.killSignal (-(procPid : Int))])
        | none =>
          if (IsViable (w.devtool cycle)).1 then
            (SupOutcome.ok, [Event.killSignal (-(procPid : Int)), Event.launch (w.pid cycle)])
          else
            let r := restartFuel w ignoreCertificateErrors fuel (w.pid cycle) (cycle + 1)
            (wrapOp "chrome.restart" r.1,
             Event.killSignal (-(procPid : Int)) :: Event.launch (w.pid cycle) :: r.2)

/-- Embedding of `chrome.Start` (chrome.go lines 18-44): build the command,
start it, probe with `IsViable` discarding the probe's error
(`isViable, _ := IsViable(logger)`), and hand over to `restart` when not
viable; a resolver error is wrapped with the `chrome.Start` tag. -/
def StartFuel (w : World) (ignoreCertificateErrors : Bool) (fuel : Nat) :
    SupOutcome × List Event :=
  match cmdF (w.cmdErr 0) ignoreCertificateErrors with
  | Except.error e => (SupOutcome.fail (GoError.xerrorNew "chrome.Start" e), [])
  | Except.ok _ =>
    match w.startErr 0 with
    | some e => (SupOutcome.fail (GoError.xerrorNew "chrome.Start" e), [])
    | none =>
      if (IsViable (w.devtool 0)).1 then
        (SupOutcome.ok, [Event.launch (w.pid 0)])
      else
        let r := restartFuel w ignoreCertificateErrors fuel (w.pid 0) 1
        (wrapOp "chrome.Start" r.1, Event.launch (w.pid 0) :: r.2)

/-- Trace shape of a `restart` invocation whose stale-process kill target is
`t`: the first event, if any, is the kill of the stale process; a launch
of pid `p` may follow only after that kill completed, and the remaining
trace is a `restart` invocation whose stale kill target is `-p`. -/
inductive KLShape : Int → List Event → Prop where
  | nil (t : Int) : KLShape t []
  | killOnly (t : Int) : KLShape t [Event.killSignal t]
  | killLaunch (t : Int) (p : Nat) : KLShape t [Event.killSignal t, Event.launch p]
  | killLaunchCons (t : Int) (p : Nat) (rest : List Event) :
      KLShape (-(p : Int)) rest →
      KLShape t (Event.killSignal t :: Event.launch p :: rest)

/-! ### Lemmas about the probe loop -/

theorem viableAttempt_fst (x : Except E Unit) : (viableAttempt x).1 = isOkB x := by
  cases x <;> rfl

theorem isViableLoop_result_true (probe : Nat → Except E Unit) (fuel i : Nat) (e : Option E) :
    isViableLoop probe fuel i true e = (true, e, i) := by
  cases fuel <;> simp [isViableLoop]

theorem isViableLoop_stop (probe : Nat → Except E Unit) (fuel i : Nat) (r : Bool) (e : Option E)
    (h : maxViabilityTests ≤ i) :
    isViableLoop probe fuel i r e = (r, e, i) := by
  cases fuel with
  | zero => rfl
  | succ n =>
    simp only [isViableLoop]
    exact if_neg (fun hc => absurd hc.1 (Nat.not_lt.2 h))

theorem isViableLoop_le_idx (probe : Nat → Except E Unit) :
    ∀ fuel i r e, i ≤ (isViableLoop probe fuel i r e).2.2 := by
  intro fuel
  induction fuel with
  | zero => intro i r e; exact Nat.le_refl i
  | succ n ih =>
    intro i r e
    by_cases h : i < maxViabilityTests ∧ r = false
    · simp only [isViableLoop]
      rw [if_pos h]
      exact Nat.le_trans (Nat.le_succ i) (ih (i + 1) _ _)
    · simp only [isViableLoop]
      rw [if_neg h]

theorem isViableLoop_le_max (probe : Nat → Except E Unit) :
    ∀ fuel i r e, i ≤ maxViabilityTests →
      (isViableLoop probe fuel i r e).2.2 ≤ maxViabilityTests := by
  intro fuel
  induction fuel with
  | zero => intro i r e hi; exact hi
  | succ n ih =>
    intro i r e hi
    by_cases h : i < maxViabilityTests ∧ r = false
    · simp only [isViableLoop]
      rw [if_pos h]
      exact ih (i + 1) _ _ h.1
    · simp only [isViableLoop]
      rw [if_neg h]
      exact hi

theorem isViableLoop_progress (probe : Nat → Except E Unit) (fuel i : Nat) (e : Option E)
    (hfi : maxViabilityTests ≤ fuel + i) (hi : i < maxViabilityTests) :
    i < (isViableLoop probe fuel i false e).2.2 := by
  cases fuel with
  | zero => omega
  | succ n =>
    simp only [isViableLoop]
    rw [if_pos ⟨hi, trivial⟩]
    exact Nat.lt_of_lt_of_le (Nat.lt_succ_self i) (isViableLoop_le_idx probe n (i + 1) _ _)

theorem isViableLoop_first_ok (probe : Nat → Except E Unit) :
    ∀ fuel i e k, maxViabilityTests ≤ fuel + i → i ≤ k → k < maxViabilityTests →
      isOkB (probe k) = true →
      (∀ j, i ≤ j → j < k → isOkB (probe j) = false) →
      (isViableLoop probe fuel i false e).2.2 = k + 1 := by
  intro fuel
  induction fuel with
  | zero => intro i e k hfi hik hk _ _; omega
  | succ n ih =>
    intro i e k hfi hik hk hkok hbefore
    have hi : i < maxViabilityTests := Nat.lt_of_le_of_lt hik hk
    simp only [isViableLoop]
    rw [if_pos ⟨hi, trivial⟩]
    rcases Nat.eq_or_lt_of_le hik with heq | hlt
    · subst heq
      rw [viableAttempt_fst, hkok, isViableLoop_result_true]
    · have hfalse : (viableAttempt (probe i)).1 = false := by
        rw [viableAttempt_fst]
        exact hbefore i (Nat.le_refl i) hlt
      rw [hfalse]
      exact ih (i + 1) _ k (by omega) hlt hk hkok (fun j hj hjk => hbefore j (by omega) hjk)

theorem isViableLoop_last (probe : Nat → Except E Unit) :
    ∀ fuel i e, maxViabilityTests ≤ fuel + i → i < maxViabilityTests →
      ((isViableLoop probe fuel i false e).1, (isViableLoop probe fuel i false e).2.1)
        = viableAttempt (probe ((isViableLoop probe fuel i false e).2.2 - 1)) := by
  intro fuel
  induction fuel with
  | zero => intro i e hfi hi; omega
  | succ n ih =>
    intro i e hfi hi
    simp only [isViableLoop]
    rw [if_pos ⟨hi, trivial⟩]
    cases hr : (viableAttempt (probe i)).1 with
    | true =>
      rw [isViableLoop_result_true]
      dsimp only
      rw [Nat.add_sub_cancel, ← hr]
    | false =>
      by_cases h2 : i + 1 < maxViabilityTests
      · exact ih (i + 1) _ (by omega) h2
      · have h20 : maxViabilityTests ≤ i + 1 := Nat.not_lt.1 h2
        rw [isViableLoop_stop probe n (i + 1) false _ h20]
        dsimp only
        rw [Nat.add_sub_cancel, ← hr]

theorem isViableLoop_all_fail (probe : Nat → Except E Unit)
    (hall : ∀ a, isOkB (probe a) = false) :
    ∀ fuel i e, (isViableLoop probe fuel i false e).1 = false := by
  intro fuel
  induction fuel with
  | zero => intro i e; rfl
  | succ n ih =>
    intro i e
    by_cases h : i < maxViabilityTests
    · simp only [isViableLoop]
      rw [if_pos ⟨h, trivial⟩]
      have hf : (viableAttempt (probe i)).1 = false := by
        rw [viableAttempt_fst]
        exact hall i
      rw [hf]
      exact ih (i + 1) _
    · simp only [isViableLoop]
      rw [if_neg (fun hc => h hc.1)]

theorem isViableLoop_ok_congr (probe probe' : Nat → Except E Unit)
    (hok : ∀ a, isOkB (probe a) = isOkB (probe' a)) :
    ∀ fuel i r e e',
      (isViableLoop probe fuel i r e).1 = (isViableLoop probe' fuel i r e').1 ∧
      (isViableLoop probe fuel i r e).2.2 = (isViableLoop probe' fuel i r e').2.2 := by
  intro fuel
  induction fuel with
  | zero => intro i r e e'; exact ⟨rfl, rfl⟩
  | succ n ih =>
    intro i r e e'
    by_cases h : i < maxViabilityTests ∧ r = false
    · simp only [isViableLoop]
      rw [if_pos h, if_pos h]
      have h1 : (viableAttempt (probe' i)).1 = (viableAttempt (probe i)).1 := by
        rw [viableAttempt_fst, viableAttempt_fst, hok i]
      rw [h1]
      exact ih (i + 1) _ _ _
    · simp only [isViableLoop]
      rw [if_neg h, if_neg h]
      exact ⟨rfl, rfl⟩

/-! ### Lemmas about the supervisor -/

theorem restartFuel_ok_congr (w w' : World) (ic : Bool)
    (hk : w.sysKill = w'.sysKill) (hc : w.cmdErr = w'.cmdErr) (hs : w.startErr = w'.startErr)
    (hp : w.pid = w'.pid)
    (hok : ∀ c a, isOkB (w.devtool c a) = isOkB (w'.devtool c a)) :
    ∀ fuel procPid cycle,
      restartFuel w ic fuel procPid cycle = restartFuel w' ic fuel procPid cycle := by
  obtain ⟨sk, ce, se, pd, dv⟩ := w
  obtain ⟨sk', ce', se', pd', dv'⟩ := w'
  subst hk
  subst hc
  subst hs
  subst hp
  intro fuel
  induction fuel with
  | zero => intro procPid cycle; rfl
  | succ n ih =>
    intro procPid cycle
    have hviable : (IsViable (dv cycle)).1 = (IsViable (dv' cycle)).1 := by
      show (isViableLoop (dv cycle) maxViabilityTests 0 false none).1
          = (isViableLoop (dv' cycle) maxViabilityTests 0 false none).1
      exact (isViableLoop_ok_congr (dv cycle) (dv' cycle) (hok cycle)
        maxViabilityTests 0 false none none).1
    simp only [restartFuel]
    rw [hviable, ih (pd cycle) (cycle + 1)]

/-- The full trace of any `restart` invocation has the kill-before-launch
shape: the stale process's kill is the first event, a launch may follow it,
and the recursive trace kills that launched process first in turn. -/
theorem restartFuel_trace_shape (w : World) (ic : Bool) :
    ∀ (fuel procPid cycle : Nat),
      KLShape (-(procPid : Int)) (restartFuel w ic fuel procPid cycle).2 := by
  intro fuel
  induction fuel with
  | zero => intro procPid cycle; exact KLShape.nil _
  | succ n ih =>
    intro procPid cycle
    cases hkill : kill w.sysKill procPid with
    | some e =>
      simp only [restartFuel, hkill]
      exact KLShape.killOnly _
    | none =>
      cases hcmd : cmdF (w.cmdErr cycle) ic with
      | error e =>
        simp only [restartFuel, hkill, hcmd]
        exact KLShape.killOnly _
      | ok c =>
        cases hst : w.startErr cycle with
        | some e =>
          simp only [restartFuel, hkill, hcmd, hst]
          exact KLShape.killOnly _
        | none =>
          cases hv : (IsViable (w.devtool cycle)).1 with
          | true =>
            simp [restartFuel, hkill, hcmd, hst, hv]
            exact KLShape.killLaunch _ _
          | false =>
            simp [restartFuel, hkill, hcmd, hst, hv]
            exact KLShape.killLaunchCons _ _ _ (ih (w.pid cycle) (cycle + 1))

/-- A world in which every launch succeeds but no process ever answers the
probe: each devtools call fails with a connection-refused diagnostic. -/
def persistentFailureWorld : World :=
  ⟨fun _ _ => none, fun _ => none, fun _ => none, fun c => c,
   fun _ _ => Except.error (GoError.errstr "connection refused")⟩

theorem IsViable_persistentFailure_fst (c : Nat) :
    (IsViable (persistentFailureWorld.devtool c)).1 = false := by
  show (isViableLoop (persistentFailureWorld.devtool c) maxViabilityTests 0 false none).1 = false
  exact isViableLoop_all_fail (persistentFailureWorld.devtool c) (fun a => rfl)
    maxViabilityTests 0 none

theorem restartFuel_persistentFailure : ∀ (fuel procPid cycle : Nat),
    (restartFuel persistentFailureWorld false fuel procPid cycle).1 = SupOutcome.fuelOut ∧
    countLaunch (restartFuel persistentFailureWorld false fuel procPid cycle).2 = fuel := by
  intro fuel
  induction fuel with
  | zero => intro procPid cycle; exact ⟨rfl, rfl⟩
  | succ n ih =>
    intro procPid cycle
    have hstep : restartFuel persistentFailureWorld false (n + 1) procPid cycle
        = (wrapOp "chrome.restart" (restartFuel persistentFailureWorld false n cycle (cycle + 1)).1,
           Event.killSignal (-(procPid : Int)) :: Event.launch cycle ::
             (restartFuel persistentFailureWorld false n cycle (cycle + 1)).2) := rfl
    rw [hstep]
    obtain ⟨ih1, ih2⟩ := ih cycle (cycle + 1)
    constructor
    · dsimp only
      rw [ih1]
      rfl
    · dsimp only [countLaunch]
      rw [ih2]

/-! ### Claim theorems -/

/-- C1: for every sequence of probe outcomes, the probe loop of IsViable
performs at least 1 and at most 20 probe attempts, and it stops early at
the first attempt that reports viable: if attempt k (k < 20) succeeds and
every earlier attempt fails, exactly k + 1 attempts are performed. -/
theorem isviable_attempt_bounds (probe : Nat → Except E Unit) :
    1 ≤ IsViableAttempts probe ∧ IsViableAttempts probe ≤ 20 ∧
    ∀ k, k < 20 → isOkB (probe k) = true →
      (∀ j, j < k → isOkB (probe j) = false) →
      IsViableAttempts probe = k + 1 := by
  refine ⟨?_, ?_, ?_⟩
  · show 1 ≤ (isViableLoop probe maxViabilityTests 0 false none).2.2
    exact isViableLoop_progress probe maxViabilityTests 0 none (by decide) (by decide)
  · show (isViableLoop probe maxViabilityTests 0 false none).2.2 ≤ 20
    exact isViableLoop_le_max probe maxViabilityTests 0 false none (by decide)
  · intro k hk hkok hbefore
    show (isViableLoop probe maxViabilityTests 0 false none).2.2 = k + 1
    exact isViableLoop_first_ok probe maxViabilityTests 0 none k (by decide)
      (Nat.zero_le k) hk hkok (fun j _ hjk => hbefore j hjk)

/-- A concrete probe sequence whose fourth attempt (index 3) is the first
viable one. -/
def witnessProbe : Nat → Except String Unit :=
  fun n => if n = 3 then Except.ok () else Except.error "probe failed"

/-- C1 witness: on a sequence failing at attempts 0-2 and viable at attempt
3, IsViable performs exactly 4 attempts. -/
theorem isviable_attempt_bounds_witness : IsViableAttempts witnessProbe = 4 :=
  (isviable_attempt_bounds witnessProbe).2.2 3 (by decide) (by decide) (by decide)

/-- C9: IsViable returns exactly the result (viable flag and error) of the
final probe attempt actually executed — the attempt whose index is one less
than the number of attempts performed; earlier results are discarded. -/
theorem isviable_returns_last (probe : Nat → Except E Unit) :
    IsViable probe = viableAttempt (probe (IsViableAttempts probe - 1)) := by
  show ((isViableLoop probe maxViabilityTests 0 false none).1,
        (isViableLoop probe maxViabilityTests 0 false none).2.1)
      = viableAttempt (probe ((isViableLoop probe maxViabilityTests 0 false none).2.2 - 1))
  exact isViableLoop_last probe maxViabilityTests 0 none (by decide) (by decide)

/-- C4: terminating a process that has already exited (the kill syscall
fails with "no such process") returns success; every other signal-delivery
failure is surfaced as an error wrapped with the chrome.kill tag. -/
theorem kill_idempotent_termination (s : SysKill) (procPid : Nat) (es : String)
    (h : s (-(procPid : Int)) Sig.SIGKILL = some es) :
    (goContains es "no such process" = true → kill s procPid = none) ∧
    (goContains es "no such process" = false →
      kill s procPid = some (GoError.xerrorNew "chrome.kill" (GoError.errstr es))) := by
  constructor
  · intro hcontains
    simp [kill, h, hcontains]
  · intro hcontains
    simp [kill, h, hcontains]

/-- C4 witness: killing pid 7 when the syscall reports "no such process"
returns success. -/
theorem kill_idempotent_termination_witness :
    kill (fun _ _ => some "kill: no such process") 7 = none :=
  (kill_idempotent_termination (fun _ _ => some "kill: no such process") 7
    "kill: no such process" rfl).1 (by decide)

/-- C6: kill sends its signal to the negation of the process's pid (the
process-group id): its outcome depends on the signal-delivery oracle only
at target -pid with SIGKILL, so any two oracles that agree there produce
identical kill outcomes. -/
theorem kill_signals_negated_pid (s s' : SysKill) (procPid : Nat)
    (h : s (-(procPid : Int)) Sig.SIGKILL = s' (-(procPid : Int)) Sig.SIGKILL) :
    kill s procPid = kill s' procPid := by
  simp only [kill, h]

/-- C6 witness: an oracle succeeding only at target -7 and an oracle
succeeding everywhere give kill the same outcome on pid 7. -/
theorem kill_signals_negated_pid_witness :
    kill (fun t _ => if t = -(7 : Int) then none else some "misdirected signal") 7
      = kill (fun _ _ => none) 7 :=
  kill_signals_negated_pid _ _ 7 (by decide)

/-- C7: the ignore-certificate-errors flag is present in the constructed
argument list exactly when certificate-error tolerance is requested. -/
theorem certificate_flag_propagation (ignoreCertificateErrors : Bool) :
    ("--ignore-certificate-errors" ∈ chromeArgs ignoreCertificateErrors)
      ↔ ignoreCertificateErrors = true := by
  cases ignoreCertificateErrors <;> decide

/-- C8: for every configuration the launch flags carry the remote-debugging
flag for port 9222 and the probe's target URL is the endpoint for port
9222, so the two never disagree on the port. -/
theorem port_invariance (ignoreCertificateErrors : Bool) :
    remoteDebuggingPortFlag 9222 ∈ chromeArgs ignoreCertificateErrors ∧
    endpoint = endpointFor 9222 := by
  cases ignoreCertificateErrors <;> exact ⟨by decide, by decide⟩

/-- C10: command construction is deterministic: whenever the spawn helper
does not fail, the constructed command is the binary "chromium" with the
16 fixed flags in fixed source order, followed by the
ignore-certificate-errors flag as the single final argument exactly when
requested; no other input influences the argument list. -/
theorem cmd_fixed_argument_list (w : World) (cycle : Nat) (ignoreCertificateErrors : Bool)
    (h : w.cmdErr cycle = none) :
    cmdF (w.cmdErr cycle) ignoreCertificateErrors
      = Except.ok ⟨chromeBinary, chromeArgs ignoreCertificateErrors, true⟩ ∧
    chromeBinary = "chromium" ∧
    baseChromeArgs.length = 16 ∧
    chromeArgs false = baseChromeArgs ∧
    chromeArgs true = baseChromeArgs ++ ["--ignore-certificate-errors"] := by
  refine ⟨?_, rfl, by decide, rfl, rfl⟩
  rw [h]
  rfl

/-- A world in which every external operation succeeds and every probe is
immediately viable. -/
def allOkWorld : World :=
  ⟨fun _ _ => none, fun _ => none, fun _ => none, fun c => c, fun _ _ => Except.ok ()⟩

/-- C10 witness: at a concrete world with a successful spawn helper the
constructed command is chromium with the fixed flag list. -/
theorem cmd_fixed_argument_list_witness :
    cmdF (allOkWorld.cmdErr 0) true
      = Except.ok ⟨chromeBinary, chromeArgs true, true⟩ :=
  (cmd_fixed_argument_list allOkWorld 0 true rfl).1

/-- C3: with persistently failing probes the restart recursion has no hard
depth limit: for every bound N, after fuel N + 1 the supervisor is still
recursing (fuelOut) and has performed N + 1 > N launch cycles, and no
amount of fuel ever makes it stop recursing. -/
theorem restart_recursion_unbounded (N : Nat) :
    (restartFuel persistentFailureWorld false (N + 1) 0 1).1 = SupOutcome.fuelOut ∧
    N < countLaunch (restartFuel persistentFailureWorld false (N + 1) 0 1).2 ∧
    ∀ fuel, (restartFuel persistentFailureWorld false fuel 0 1).1 = SupOutcome.fuelOut := by
  refine ⟨(restartFuel_persistentFailure (N + 1) 0 1).1, ?_,
    fun fuel => (restartFuel_persistentFailure fuel 0 1).1⟩
  rw [(restartFuel_persistentFailure (N + 1) 0 1).2]
  exact Nat.lt_succ_self N

/-- C5: in every restart cycle the stale process's termination strictly
precedes any replacement launch (the whole event trace has the
kill-before-launch shape), and when termination fails no replacement is
launched and the termination error is propagated as the result. -/
theorem restart_kill_before_launch (w : World) (ic : Bool) :
    (∀ (fuel procPid cycle : Nat),
      KLShape (-(procPid : Int)) (restartFuel w ic fuel procPid cycle).2) ∧
    (∀ (fuel procPid cycle : Nat) (e : GoError), kill w.sysKill procPid = some e →
      restartFuel w ic (fuel + 1) procPid cycle
        = (SupOutcome.fail (GoError.xerrorNew "chrome.restart" e),
           [Event.killSignal (-(procPid : Int))])) := by
  refine ⟨restartFuel_trace_shape w ic, ?_⟩
  intro fuel procPid cycle e hkill
  simp only [restartFuel, hkill]

/-- A world whose kill syscall always fails with a permission error. -/
def killFailWorld : World :=
  ⟨fun _ _ => some "operation not permitted", fun _ => none, fun _ => none,
   fun c => c, fun _ _ => Except.ok ()⟩

/-- C5 witness: with a failing kill oracle a restart cycle stops right
after the kill attempt, launches nothing, and returns the wrapped
termination error. -/
theorem restart_kill_before_launch_witness :
    restartFuel killFailWorld true 1 7 2
      = (SupOutcome.fail (GoError.xerrorNew "chrome.restart"
          (GoError.xerrorNew "chrome.kill" (GoError.errstr "operation not permitted"))),
         [Event.killSignal (-(7 : Int))]) :=
  (restart_kill_before_launch killFailWorld true).2 0 7 2
    (GoError.xerrorNew "chrome.kill" (GoError.errstr "operation not permitted")) (by decide)

/-- A world where every probe attempt fails with a connection-refused
diagnostic and the kill syscall fails with a permission error, so
supervision terminates with an error after the first restart's kill. -/
def cexWorld : World :=
  ⟨fun _ _ => some "operation not permitted", fun _ => none, fun _ => none,
   fun c => c + 100, fun _ _ => Except.error (GoError.errstr "connection refused")⟩

/-- C2 counterexample: supervision ultimately fails after no launched
process ever became viable and the final probe attempt's diagnostic was
"connection refused", yet the error Start returns (the wrapped kill
failure) does not mention that diagnostic anywhere in its chain. -/
theorem start_swallows_probe_diagnostic :
    (StartFuel cexWorld false 5).1
      = SupOutcome.fail (GoError.xerrorNew "chrome.Start" (GoError.xerrorNew "chrome.restart"
          (GoError.xerrorNew "chrome.kill" (GoError.errstr "operation not permitted")))) ∧
    (IsViable (cexWorld.devtool 0)).2 = some (GoError.errstr "connection refused") ∧
    errMentions (GoError.xerrorNew "chrome.Start" (GoError.xerrorNew "chrome.restart"
          (GoError.xerrorNew "chrome.kill" (GoError.errstr "operation not permitted"))))
        "connection refused" = false := ⟨rfl, rfl, rfl⟩

/-- C2 amended: Start and restart discard the probe's diagnostic error (the
IsViable error return is ignored on both paths), so the supervision outcome
— including any terminal error — is invariant under every change of probe
diagnostics that preserves each attempt's viability boolean; the terminal
error therefore never carries the final probe attempt's diagnostic. -/
theorem start_independent_of_probe_diagnostics (w w' : World) (ic : Bool) (fuel : Nat)
    (hk : w.sysKill = w'.sysKill) (hc : w.cmdErr = w'.cmdErr) (hs : w.startErr = w'.startErr)
    (hp : w.pid = w'.pid)
    (hok : ∀ c a, isOkB (w.devtool c a) = isOkB (w'.devtool c a)) :
    StartFuel w ic fuel = StartFuel w' ic fuel := by
  have hrest := restartFuel_ok_congr w w' ic hk hc hs hp hok
  obtain ⟨sk, ce, se, pd, dv⟩ := w
  obtain ⟨sk', ce', se', pd', dv'⟩ := w'
  subst hk
  subst hc
  subst hs
  subst hp
  have hviable : (IsViable (dv 0)).1 = (IsViable (dv' 0)).1 := by
    show (isViableLoop (dv 0) maxViabilityTests 0 false none).1
        = (isViableLoop (dv' 0) maxViabilityTests 0 false none).1
    exact (isViableLoop_ok_congr (dv 0) (dv' 0) (hok 0) maxViabilityTests 0 false none none).1
  simp only [StartFuel]
  rw [hviable, hrest fuel (pd 0) 1]

/-- A world with failing kill syscall and connection-refused probe
diagnostics. -/
def diagWorldA : World :=
  ⟨fun _ _ => some "operation not permitted", fun _ => none, fun _ => none,
   fun c => c, fun _ _ => Except.error (GoError.errstr "connection refused")⟩

/-- Same as diagWorldA except every probe fails with a different
diagnostic. -/
def diagWorldB : World :=
  ⟨fun _ _ => some "operation not permitted", fun _ => none, fun _ => none,
   fun c => c, fun _ _ => Except.error (GoError.errstr "i/o timeout")⟩

/-- C2 amended witness: two worlds whose probe attempts fail with different
diagnostics produce identical supervision outcomes and traces. -/
theorem start_independent_of_probe_diagnostics_witness :
    StartFuel diagWorldA false 2 = StartFuel diagWorldB false 2 :=
  start_independent_of_probe_diagnostics diagWorldA diagWorldB false 2 rfl rfl rfl rfl
    (fun _ _ => rfl)

end Chrome
